import Mathlib

/-!
Verification development for the drm-fourcc library (src/lib.rs).

The library converts between a closed enumeration of DRM pixel formats,
their 32-bit little-endian fourcc encodings, and a 4-character textual
rendering.  Strings are modelled as lists of Unicode code points
(`List Nat`); a Rust function that may panic is modelled with
`RustOutcome`, whose `panics` constructor marks every panicking control
path (failed slice indexing, `.expect` on `None`).
-/

/-- Outcome of running a Rust function that may panic: either the function
panics, or it returns a value. -/
inductive RustOutcome (α : Type) where
  | panics : RustOutcome α
  | returns : α → RustOutcome α
deriving DecidableEq, Repr

/-- Byte `i` (little-endian) of a 32-bit value, as in `u32::to_le_bytes`. -/
def leByte (v i : Nat) : Nat := v / 256 ^ i % 256

/-- `u32::to_le_bytes` from the source: the four little-endian bytes. -/
def u32ToLeBytes (v : Nat) : List Nat :=
  [leByte v 0, leByte v 1, leByte v 2, leByte v 3]

/-- `char::is_ascii_alphanumeric` from Rust: `0-9`, `A-Z` or `a-z`. -/
def isAsciiAlphanumericNat (b : Nat) : Bool :=
  (48 ≤ b && b ≤ 57) || (65 ≤ b && b ≤ 90) || (97 ≤ b && b ≤ 122)

/-- UTF-8 validation and decoding as performed by Rust's
`String::from_utf8`: returns the decoded code points when the bytes are
valid UTF-8 and `none` otherwise.  Follows the UTF-8 byte classes:
one-byte `00-7F`, two-byte leads `C2-DF`, three-byte leads `E0-EF` (with
the `E0`/`ED` continuation restrictions excluding overlong encodings and
surrogates), four-byte leads `F0-F4` (with the `F0`/`F4` restrictions
excluding overlong encodings and values above `10FFFF`).  The match is
split by the number of remaining bytes so that every recursive call is
structural; a lead byte whose continuation bytes are missing falls to the
trailing `none` of its arm (a truncated sequence is invalid). -/
def utf8Decode : List Nat → Option (List Nat)
  | [] => some []
  | [b] =>
    if b < 0x80 then some [b] else none
  | [b, c1] =>
    if b < 0x80 then (utf8Decode [c1]).map (fun cs => b :: cs)
    else if b < 0xC2 then none
    else if b ≤ 0xDF then
      if 0x80 ≤ c1 && c1 ≤ 0xBF then some [b % 0x20 * 0x40 + c1 % 0x40] else none
    else none
  | [b, c1, c2] =>
    if b < 0x80 then (utf8Decode [c1, c2]).map (fun cs => b :: cs)
    else if b < 0xC2 then none
    else if b ≤ 0xDF then
      if 0x80 ≤ c1 && c1 ≤ 0xBF then
        (utf8Decode [c2]).map (fun cs => (b % 0x20 * 0x40 + c1 % 0x40) :: cs)
      else none
    else if b ≤ 0xEF then
      if (if b = 0xE0 then 0xA0 else 0x80) ≤ c1 &&
         c1 ≤ (if b = 0xED then 0x9F else 0xBF) &&
         0x80 ≤ c2 && c2 ≤ 0xBF then
        some [b % 0x10 * 0x1000 + c1 % 0x40 * 0x40 + c2 % 0x40]
      else none
    else none
  | b :: c1 :: c2 :: c3 :: rest =>
    if b < 0x80 then (utf8Decode (c1 :: c2 :: c3 :: rest)).map (fun cs => b :: cs)
    else if b < 0xC2 then none
    else if b ≤ 0xDF then
      if 0x80 ≤ c1 && c1 ≤ 0xBF then
        (utf8Decode (c2 :: c3 :: rest)).map (fun cs => (b % 0x20 * 0x40 + c1 % 0x40) :: cs)
      else none
    else if b ≤ 0xEF then
      if (if b = 0xE0 then 0xA0 else 0x80) ≤ c1 &&
         c1 ≤ (if b = 0xED then 0x9F else 0xBF) &&
         0x80 ≤ c2 && c2 ≤ 0xBF then
        (utf8Decode (c3 :: rest)).map
          (fun cs => (b % 0x10 * 0x1000 + c1 % 0x40 * 0x40 + c2 % 0x40) :: cs)
      else none
    else if b ≤ 0xF4 then
      if (if b = 0xF0 then 0x90 else 0x80) ≤ c1 &&
         c1 ≤ (if b = 0xF4 then 0x8F else 0xBF) &&
         0x80 ≤ c2 && c2 ≤ 0xBF && 0x80 ≤ c3 && c3 ≤ 0xBF then
        (utf8Decode rest).map
          (fun cs =>
            (b % 8 * 0x40000 + c1 % 0x40 * 0x1000 + c2 % 0x40 * 0x40 + c3 % 0x40) :: cs)
      else none
    else none

/-- `fn fourcc_string_form(fourcc: u32) -> Option<String>` from src/lib.rs.

Decodes the four little-endian bytes as UTF-8 (`String::from_utf8`; the
`?` operator turns a decoding error into `None`), splits the resulting
characters at index 3 and indexes the tail (`chars.split_at(3)` followed
by `last_chars[0]`: both panic when fewer than four characters were
decoded, hence the `panics` branch), requires the first three characters
to be ASCII alphanumeric (returning `None` otherwise), and renders a
trailing null as a literal space. -/
def fourcc_string_form (fourcc : Nat) : RustOutcome (Option (List Nat)) :=
  match utf8Decode (u32ToLeBytes fourcc) with
  | none => RustOutcome.returns none
  | some chars =>
    match chars with
    | c0 :: c1 :: c2 :: last :: _ =>
      if isAsciiAlphanumericNat c0 then
        if isAsciiAlphanumericNat c1 then
          if isAsciiAlphanumericNat c2 then
            RustOutcome.returns (some [c0, c1, c2, if last = 0 then 32 else last])
          else RustOutcome.returns none
        else RustOutcome.returns none
      else RustOutcome.returns none
    | _ => RustOutcome.panics

/-- The code points of a string literal, for stating concrete renderings. -/
def strLit (s : String) : List Nat := s.toList.map Char.toNat

/-- Modelled from the spec: the generated format table (`mod as_enum`,
`mod consts`, absent from src/) is, per the spec, a closed enumeration in
which each variant corresponds to exactly one 32-bit fourcc value, the
mapping being injective and total in both directions over the recognized
values.  Modelled here with the representative entries whose values
src/lib.rs's doctests and tests pin down: `Xrgb8888 = 875713112`
("XR24"), `Bgr888 = 875710274` ("BG24"), `Ayuv = 1448433985` ("AYUV"). -/
inductive DrmFormat where
  | Xrgb8888 : DrmFormat
  | Bgr888 : DrmFormat
  | Ayuv : DrmFormat
deriving DecidableEq, Repr

/-- Modelled from the spec: `Format as u32`, the encode direction of the
generated table (absent from src/) — each variant's canonical 32-bit
fourcc value. -/
def DrmFormat.encode : DrmFormat → Nat
  | DrmFormat.Xrgb8888 => 875713112
  | DrmFormat.Bgr888 => 875710274
  | DrmFormat.Ayuv => 1448433985

/-- Modelled from the spec: `DrmFormat::from_u32` of the generated
`as_enum` module (absent from src/) — the reverse table lookup, returning
the variant whose encoding matches and `none` for every other value. -/
def DrmFormat.from_u32 (value : Nat) : Option DrmFormat :=
  if value = 875713112 then some DrmFormat.Xrgb8888
  else if value = 875710274 then some DrmFormat.Bgr888
  else if value = 1448433985 then some DrmFormat.Ayuv
  else none

/-- `pub struct UnrecognizedFourcc(pub u32)` from src/lib.rs: wraps a u32
that is not a recognized DRM fourcc. -/
structure UnrecognizedFourcc where
  val : Nat
deriving DecidableEq, Repr

/-- `TryFrom<u32> for DrmFormat` from src/lib.rs:
`Self::from_u32(value).ok_or(UnrecognizedFourcc(value))`. -/
def DrmFormat.tryFrom (value : Nat) : Except UnrecognizedFourcc DrmFormat :=
  match DrmFormat.from_u32 value with
  | some f => Except.ok f
  | none => Except.error (UnrecognizedFourcc.mk value)

/-- `UnrecognizedFourcc::string_form` from src/lib.rs:
`fourcc_string_form(self.0)`. -/
def UnrecognizedFourcc.string_form (u : UnrecognizedFourcc) :
    RustOutcome (Option (List Nat)) :=
  fourcc_string_form u.val

/-- `DrmFormat::string_form` from src/lib.rs:
`fourcc_string_form(*self as u32).expect("Must be valid fourcc")` —
`.expect` panics when the rendering is `None`, and a panic inside
`fourcc_string_form` propagates. -/
def DrmFormat.string_form (f : DrmFormat) : RustOutcome (List Nat) :=
  match fourcc_string_form (DrmFormat.encode f) with
  | RustOutcome.returns (some s) => RustOutcome.returns s
  | _ => RustOutcome.panics

/-- Decimal digits of a number, as Rust's `Debug`/`Display` for `u32`
renders it. -/
def natLit (n : Nat) : List Nat := (Nat.repr n).toList.map Char.toNat

/-- Hexadecimal digits (lowercase, no leading zeros) of a code point, for
`\u` escapes. -/
def hexDigits (n : Nat) : List Nat :=
  let d := n % 16
  let digit := if d < 10 then 48 + d else 87 + d
  if n < 16 then [digit] else hexDigits (n / 16) ++ [digit]

/-- `char::escape_debug` as used by `Debug` for `String` (single quotes
not escaped): null, tab, carriage return, newline, backslash and double
quote get two-character escapes, printable characters stand for
themselves, everything else becomes a `\u` escape. -/
def escapeDebugChar (c : Nat) : List Nat :=
  if c = 0 then strLit "\\0"
  else if c = 9 then strLit "\\t"
  else if c = 13 then strLit "\\r"
  else if c = 10 then strLit "\\n"
  else if c = 92 then strLit "\\\\"
  else if c = 34 then strLit "\\\""
  else if 32 ≤ c && c ≤ 126 then [c]
  else strLit "\\u\x7b" ++ hexDigits c ++ strLit "\x7d"

/-- `Debug` for `String`: a double quote, each character escaped, a double
quote. -/
def escapeDebugStr (s : List Nat) : List Nat :=
  strLit "\"" ++ (s.map escapeDebugChar).flatten ++ strLit "\""

/-- `Debug for UnrecognizedFourcc` from src/lib.rs: a `debug_tuple` named
`UnrecognizedFourcc` whose fields are the quoted string form (only when
`self.string_form()` is `Some`) followed by the raw numeric value; a panic
inside `string_form` propagates. -/
def UnrecognizedFourcc.debugFmt (u : UnrecognizedFourcc) : RustOutcome (List Nat) :=
  match UnrecognizedFourcc.string_form u with
  | RustOutcome.panics => RustOutcome.panics
  | RustOutcome.returns (some s) =>
    RustOutcome.returns
      (strLit "UnrecognizedFourcc(" ++ escapeDebugStr s ++ strLit ", " ++
        natLit u.val ++ strLit ")")
  | RustOutcome.returns none =>
    RustOutcome.returns (strLit "UnrecognizedFourcc(" ++ natLit u.val ++ strLit ")")

/-- `Display for UnrecognizedFourcc` from src/lib.rs: `Debug::fmt(&self, f)`,
a pure delegation to the `Debug` rendering. -/
def UnrecognizedFourcc.displayFmt (u : UnrecognizedFourcc) : RustOutcome (List Nat) :=
  UnrecognizedFourcc.debugFmt u

/-- `Debug for DrmFormat` from src/lib.rs: a `debug_tuple` named
`DrmFormat` whose single field is the quoted `string_form`; a panic inside
`string_form` propagates. -/
def DrmFormat.debugFmt (f : DrmFormat) : RustOutcome (List Nat) :=
  match DrmFormat.string_form f with
  | RustOutcome.panics => RustOutcome.panics
  | RustOutcome.returns s =>
    RustOutcome.returns (strLit "DrmFormat(" ++ escapeDebugStr s ++ strLit ")")

/-- `Display for DrmFormat` from src/lib.rs: `Debug::fmt(self, f)`, a pure
delegation to the `Debug` rendering. -/
def DrmFormat.displayFmt (f : DrmFormat) : RustOutcome (List Nat) :=
  DrmFormat.debugFmt f

example : fourcc_string_form 875713112 = RustOutcome.returns (some (strLit "XR24")) := by decide
example : fourcc_string_form 828601953 = RustOutcome.returns (some (strLit "avc1")) := by decide
example : fourcc_string_form 0x316376 = RustOutcome.returns (some (strLit "vc1 ")) := by decide
example : fourcc_string_form 0 = RustOutcome.returns none := by decide
example : fourcc_string_form 1094820034 = RustOutcome.panics := by decide
example : fourcc_string_form 2697109698 = RustOutcome.panics := by decide
example : fourcc_string_form 560161377 = RustOutcome.returns (some (strLit "abc!")) := by decide


example : DrmFormat.tryFrom 875710274 = Except.ok DrmFormat.Bgr888 := by rfl
example : DrmFormat.tryFrom 0 = Except.error (UnrecognizedFourcc.mk 0) := by rfl
example : DrmFormat.string_form DrmFormat.Xrgb8888 = RustOutcome.returns (strLit "XR24") := by
  decide
example :
    UnrecognizedFourcc.displayFmt (UnrecognizedFourcc.mk 828601953) =
      RustOutcome.returns (strLit "UnrecognizedFourcc(\"avc1\", 828601953)") := by decide
example :
    UnrecognizedFourcc.displayFmt (UnrecognizedFourcc.mk 0) =
      RustOutcome.returns (strLit "UnrecognizedFourcc(0)") := by decide

/-- An ASCII alphanumeric code point is below 128. -/
theorem isAsciiAlphanumericNat_lt_128 (b : Nat)
    (h : isAsciiAlphanumericNat b = true) : b < 128 := by
  simp only [isAsciiAlphanumericNat, Bool.or_eq_true, Bool.and_eq_true,
    decide_eq_true_eq] at h
  omega

/-- Decoding a leading ASCII byte conses it onto the decoding of the rest. -/
theorem utf8Decode_ascii_cons (b : Nat) (hb : b < 128) (rest : List Nat) :
    utf8Decode (b :: rest) = (utf8Decode rest).map (fun cs => b :: cs) := by
  rcases rest with _ | ⟨c1, _ | ⟨c2, _ | ⟨c3, rest⟩⟩⟩ <;> simp [utf8Decode, hb]

/-- A lone non-ASCII byte is never valid UTF-8: every multi-byte sequence
needs continuation bytes. -/
theorem utf8Decode_single_hi (d : Nat) (hd : 128 ≤ d) : utf8Decode [d] = none := by
  simp only [utf8Decode, if_neg (by omega : ¬ d < 128)]



set_option maxHeartbeats 4000000 in
theorem utf8Decode_four (a b c d : Nat) (cs : List Nat)
    (h : utf8Decode [a, b, c, d] = some cs) (hl : 4 ≤ cs.length) :
    cs = [a, b, c, d] ∧ a < 128 ∧ b < 128 ∧ c < 128 ∧ d < 128 := by
  revert h
  simp only [utf8Decode]
  split_ifs <;> intro h <;> simp at h <;> subst h <;> simp_all

theorem utf8Decode_ascii4 (b0 b1 b2 b3 : Nat)
    (h0 : b0 < 128) (h1 : b1 < 128) (h2 : b2 < 128) (h3 : b3 < 128) :
    utf8Decode [b0, b1, b2, b3] = some [b0, b1, b2, b3] := by
  simp [utf8Decode, h0, h1, h2, h3]

theorem utf8Decode_hi_last (b0 b1 b2 b3 : Nat)
    (h0 : b0 < 128) (h1 : b1 < 128) (h2 : b2 < 128) (h3 : 128 ≤ b3) :
    utf8Decode [b0, b1, b2, b3] = none := by
  simp [utf8Decode, h0, h1, h2, show ¬ b3 < 128 by omega]

/-- C8: whenever `fourcc_string_form` returns a string, that string has
exactly 4 characters, all of them ASCII (code points below 128); the 4th
is either the 4th byte itself or a literal space standing for a null
padding byte. -/
theorem c8_render_success_is_4_ascii (v : Nat) (s : List Nat)
    (h : fourcc_string_form v = RustOutcome.returns (some s)) :
    s.length = 4 ∧ ∀ c ∈ s, c < 128 := by
  unfold fourcc_string_form at h
  split at h
  · simp at h
  · rename_i chars hd
    split at h
    · rename_i c0 c1 c2 last rest
      split_ifs at h with a0 a1 a2 hz
      · simp only [RustOutcome.returns.injEq, Option.some_inj] at h
        subst h
        obtain ⟨hcs, hb0, hb1, hb2, hb3⟩ :=
          utf8Decode_four (leByte v 0) (leByte v 1) (leByte v 2) (leByte v 3)
            (c0 :: c1 :: c2 :: last :: rest)
            (by simpa [u32ToLeBytes] using hd)
            (by simp only [List.length_cons]; omega)
        simp only [List.cons.injEq] at hcs
        obtain ⟨rfl, rfl, rfl, rfl, rfl⟩ := hcs
        refine ⟨rfl, ?_⟩
        intro c hc
        have l0 := isAsciiAlphanumericNat_lt_128 _ a0
        have l1 := isAsciiAlphanumericNat_lt_128 _ a1
        have l2 := isAsciiAlphanumericNat_lt_128 _ a2
        simp only [List.mem_cons, List.not_mem_nil, or_false] at hc
        rcases hc with rfl | rfl | rfl | rfl
        · exact l0
        · exact l1
        · exact l2
        · omega
      · simp only [RustOutcome.returns.injEq, Option.some_inj] at h
        subst h
        obtain ⟨hcs, hb0, hb1, hb2, hb3⟩ :=
          utf8Decode_four (leByte v 0) (leByte v 1) (leByte v 2) (leByte v 3)
            (c0 :: c1 :: c2 :: last :: rest)
            (by simpa [u32ToLeBytes] using hd)
            (by simp only [List.length_cons]; omega)
        simp only [List.cons.injEq] at hcs
        obtain ⟨rfl, rfl, rfl, rfl, rfl⟩ := hcs
        refine ⟨rfl, ?_⟩
        intro c hc
        have l0 := isAsciiAlphanumericNat_lt_128 _ a0
        have l1 := isAsciiAlphanumericNat_lt_128 _ a1
        have l2 := isAsciiAlphanumericNat_lt_128 _ a2
        simp only [List.mem_cons, List.not_mem_nil, or_false] at hc
        rcases hc with rfl | rfl | rfl | rfl
        · exact l0
        · exact l1
        · exact l2
        · exact hb3
      · simp at h
      · simp at h
      · simp at h
    · simp at h

/-- C8 witness: the theorem applied at the concrete input 875713112, whose
rendering is "XR24". -/
theorem c8_render_success_is_4_ascii_witness :
    fourcc_string_form 875713112 = RustOutcome.returns (some (strLit "XR24")) ∧
    ((strLit "XR24").length = 4 ∧ ∀ c ∈ strLit "XR24", c < 128) :=
  ⟨by decide, c8_render_success_is_4_ascii 875713112 (strLit "XR24") (by decide)⟩

/-- C1 counterexample: 560161377 has little-endian bytes "a","b","c","!";
the first three are ASCII alphanumeric, the 4th (33, i.e. '!') is neither
alphanumeric nor null, yet `fourcc_string_form` accepts it and returns
"abc!" instead of returning nothing — the code never checks the 4th byte
for being alphanumeric. -/
theorem c1_counterexample :
    isAsciiAlphanumericNat (leByte 560161377 0) = true ∧
    isAsciiAlphanumericNat (leByte 560161377 1) = true ∧
    isAsciiAlphanumericNat (leByte 560161377 2) = true ∧
    isAsciiAlphanumericNat (leByte 560161377 3) = false ∧
    leByte 560161377 3 ≠ 0 ∧
    fourcc_string_form 560161377 = RustOutcome.returns (some (strLit "abc!")) := by
  decide

/-- C1 (amended): for every value whose first three little-endian bytes
are ASCII alphanumeric, the 4th byte is handled in three cases: the null
byte is rendered as a literal space; any other ASCII byte (alphanumeric
or not) is appended literally; a non-ASCII 4th byte (128 or above) makes
the operation return nothing, because the four bytes are then not valid
UTF-8. -/
theorem c1_fourth_byte_policy (v : Nat)
    (h0 : isAsciiAlphanumericNat (leByte v 0) = true)
    (h1 : isAsciiAlphanumericNat (leByte v 1) = true)
    (h2 : isAsciiAlphanumericNat (leByte v 2) = true) :
    (leByte v 3 = 0 →
      fourcc_string_form v =
        RustOutcome.returns (some [leByte v 0, leByte v 1, leByte v 2, 32])) ∧
    (leByte v 3 ≠ 0 → leByte v 3 < 128 →
      fourcc_string_form v =
        RustOutcome.returns (some [leByte v 0, leByte v 1, leByte v 2, leByte v 3])) ∧
    (128 ≤ leByte v 3 → fourcc_string_form v = RustOutcome.returns none) := by
  have l0 := isAsciiAlphanumericNat_lt_128 _ h0
  have l1 := isAsciiAlphanumericNat_lt_128 _ h1
  have l2 := isAsciiAlphanumericNat_lt_128 _ h2
  refine ⟨?_, ?_, ?_⟩
  · intro hz
    have hd := utf8Decode_ascii4 (leByte v 0) (leByte v 1) (leByte v 2) (leByte v 3)
      l0 l1 l2 (by omega)
    rw [hz] at hd
    simp [fourcc_string_form, u32ToLeBytes, hd, h0, h1, h2, hz]
  · intro hnz hlt
    have hd := utf8Decode_ascii4 (leByte v 0) (leByte v 1) (leByte v 2) (leByte v 3)
      l0 l1 l2 hlt
    simp [fourcc_string_form, u32ToLeBytes, hd, h0, h1, h2, hnz]
  · intro hhi
    have hd := utf8Decode_hi_last (leByte v 0) (leByte v 1) (leByte v 2) (leByte v 3)
      l0 l1 l2 hhi
    simp only [fourcc_string_form, u32ToLeBytes, hd]

/-- C1 witness: the amended theorem applied at 0x316376 ("vc1" with a null
4th byte), which renders as "vc1 " with a trailing space. -/
theorem c1_fourth_byte_policy_witness :
    isAsciiAlphanumericNat (leByte 3236726 0) = true ∧
    isAsciiAlphanumericNat (leByte 3236726 1) = true ∧
    isAsciiAlphanumericNat (leByte 3236726 2) = true ∧
    leByte 3236726 3 = 0 ∧
    fourcc_string_form 3236726 = RustOutcome.returns (some (strLit "vc1 ")) :=
  ⟨by decide, by decide, by decide, by decide,
    (c1_fourth_byte_policy 3236726 (by decide) (by decide) (by decide)).1 (by decide)⟩

/-- C2: the claim says `fourcc_string_form` is total and returns nothing
for inputs whose 4 bytes do not form a 4-character text, but the code
panics on 1094820034: its little-endian bytes `C2 A0 41 41` are valid
UTF-8 decoding to only three characters (U+00A0, "A", "A"), so
`last_chars[0]` after `split_at(3)` indexes out of bounds. -/
theorem c2_panics_on_three_char_utf8 :
    utf8Decode (u32ToLeBytes 1094820034) = some [160, 65, 65] ∧
    fourcc_string_form 1094820034 = RustOutcome.panics := by
  decide

/-- C7: the claim says any value whose first three little-endian bytes are
not all ASCII alphanumeric yields nothing; this holds at 0 (first byte 0
is not alphanumeric, result is None) but fails at 2697109698 (bytes
`C2 A0 C2 A0`, first byte not alphanumeric), where the code panics inside
`split_at(3)` because the bytes decode to only two characters. -/
theorem c7_nonalnum_prefix_behavior :
    fourcc_string_form 0 = RustOutcome.returns none ∧
    isAsciiAlphanumericNat (leByte 2697109698 0) = false ∧
    fourcc_string_form 2697109698 = RustOutcome.panics := by
  decide

/-- C3: decoding the encoded numeric value of every format variant
round-trips losslessly: `try_from(f as u32) == Ok(f)` for each variant of
the (spec-modelled) table. -/
theorem c3_decode_encode_roundtrip (f : DrmFormat) :
    DrmFormat.tryFrom (DrmFormat.encode f) = Except.ok f := by
  cases f <;> rfl

/-- C3 witness: the round-trip theorem applied at the concrete variant
`Xrgb8888`. -/
theorem c3_decode_encode_roundtrip_witness :
    DrmFormat.tryFrom (DrmFormat.encode DrmFormat.Xrgb8888) =
      Except.ok DrmFormat.Xrgb8888 :=
  c3_decode_encode_roundtrip DrmFormat.Xrgb8888

/-- C4: every numeric value the decoder recognizes re-encodes to itself:
if `try_from(v) == Ok(f)` then `f as u32 == v`. -/
theorem c4_encode_decode_roundtrip (v : Nat) (f : DrmFormat)
    (h : DrmFormat.tryFrom v = Except.ok f) : DrmFormat.encode f = v := by
  unfold DrmFormat.tryFrom DrmFormat.from_u32 at h
  split_ifs at h with e1 e2 e3 <;> simp at h
  · subst h
    exact e1.symm
  · subst h
    exact e2.symm
  · subst h
    exact e3.symm

/-- C4 witness: the theorem applied at 875713112, recognized as
`Xrgb8888`. -/
theorem c4_encode_decode_roundtrip_witness :
    DrmFormat.tryFrom 875713112 = Except.ok DrmFormat.Xrgb8888 ∧
    DrmFormat.encode DrmFormat.Xrgb8888 = 875713112 :=
  ⟨by rfl, c4_encode_decode_roundtrip 875713112 DrmFormat.Xrgb8888 (by rfl)⟩

/-- C5: the decoder is total — for every input it yields either a format
variant or an `UnrecognizedFourcc` error carrying exactly the original
input; in particular decoding 0 and 4294967295 gives errors whose numeric
payload equals the input. -/
theorem c5_decode_total :
    (∀ v : Nat, (∃ f, DrmFormat.tryFrom v = Except.ok f) ∨
      DrmFormat.tryFrom v = Except.error (UnrecognizedFourcc.mk v)) ∧
    DrmFormat.tryFrom 0 = Except.error (UnrecognizedFourcc.mk 0) ∧
    DrmFormat.tryFrom 4294967295 = Except.error (UnrecognizedFourcc.mk 4294967295) := by
  refine ⟨?_, by rfl, by rfl⟩
  intro v
  unfold DrmFormat.tryFrom
  cases hf : DrmFormat.from_u32 v
  · right
    rfl
  · left
    exact ⟨_, rfl⟩

/-- C6: `string_form` succeeds for every variant of the (spec-modelled)
table: each variant's encoding is renderable by `fourcc_string_form`, so
the `.expect` panic branch is unreachable and `string_form` returns that
rendering. -/
theorem c6_string_form_total (f : DrmFormat) :
    ∃ s, fourcc_string_form (DrmFormat.encode f) = RustOutcome.returns (some s) ∧
      DrmFormat.string_form f = RustOutcome.returns s := by
  cases f
  · exact ⟨strLit "XR24", by decide, by decide⟩
  · exact ⟨strLit "BG24", by decide, by decide⟩
  · exact ⟨strLit "AYUV", by decide, by decide⟩

/-- C9: the claim's concrete cases hold — `UnrecognizedFourcc(828601953)`
renders with both the quoted string form "avc1" and the number, and
`UnrecognizedFourcc(0)` renders with only the number — but the universal
claim fails at 1094820034, where the `Debug` implementation panics inside
`string_form` instead of showing only the raw numeric value. -/
theorem c9_debug_rendering :
    UnrecognizedFourcc.debugFmt (UnrecognizedFourcc.mk 828601953) =
      RustOutcome.returns (strLit "UnrecognizedFourcc(\"avc1\", 828601953)") ∧
    UnrecognizedFourcc.debugFmt (UnrecognizedFourcc.mk 0) =
      RustOutcome.returns (strLit "UnrecognizedFourcc(0)") ∧
    UnrecognizedFourcc.debugFmt (UnrecognizedFourcc.mk 1094820034) =
      RustOutcome.panics := by
  decide

/-- C10: `Display` delegates to `Debug` for both `DrmFormat` and
`UnrecognizedFourcc`, so the two renderings coincide on every value. -/
theorem c10_display_eq_debug :
    (∀ f : DrmFormat, DrmFormat.displayFmt f = DrmFormat.debugFmt f) ∧
    (∀ u : UnrecognizedFourcc,
      UnrecognizedFourcc.displayFmt u = UnrecognizedFourcc.debugFmt u) :=
  ⟨fun _ => rfl, fun _ => rfl⟩
